import Mathlib

/-!
Shallow embedding of the `terraform-provider-stripe` resource modules
(coupon, plan, price, product, tax rate) and proofs about their CRUD
behaviour.

Terraform configuration fields are modelled as `Option` values: `none`
means the field is absent from the configuration, `some v` that it was
explicitly set to `v`.  Go `float64` fields carry only values that are
passed through verbatim (no arithmetic), so they are modelled as `Rat`.
Remote calls are modelled by returning the parameter record that would be
sent: a `.error` result means the operation aborted before any remote
call was issued.
-/

/-- Semantics of `ResourceData.Get` for a field with default `d`: the
configured value, or the schema default when the field is absent. -/
def tfGet {α : Type} (o : Option α) (d : α) : α := o.getD d

/-- Semantics of `ResourceData.GetOk` for a `TypeInt` field with schema
default `d`: the resolved value is returned with `ok` true exactly when
it differs from the type's zero value `0`. -/
def getOkIntD (o : Option Int) (d : Int) : Option Int :=
  let v := tfGet o d
  if v == 0 then none else some v

/-- Semantics of `ResourceData.GetOk` for a `TypeInt` field without a
schema default. -/
def getOkInt (o : Option Int) : Option Int := getOkIntD o 0

/-- Semantics of `ResourceData.GetOk` for a `TypeFloat` field: `ok` is
true exactly when the resolved value is nonzero. -/
def getOkRat (o : Option Rat) : Option Rat :=
  let v := tfGet o 0
  if v == 0 then none else some v

/-- Semantics of `ResourceData.GetOk` for a `TypeString` field with
schema default `d`: `ok` is true exactly when the resolved value is not
the empty string. -/
def getOkStrD (o : Option String) (d : String) : Option String :=
  let v := tfGet o d
  if v == "" then none else some v

/-- Semantics of `ResourceData.GetOk` for a `TypeString` field without a
schema default. -/
def getOkStr (o : Option String) : Option String := getOkStrD o ""

/-- Semantics of `ResourceData.GetOk` for a `TypeBool` field with schema
default `d`: `ok` is true exactly when the resolved value is `true`. -/
def getOkBoolD (o : Option Bool) (d : Bool) : Option Bool :=
  let v := tfGet o d
  if v then some v else none

/-- Semantics of `ResourceData.GetOk` for a `TypeList` or `TypeMap`
field: `ok` is true exactly when the resolved collection is non-empty. -/
def getOkList {α : Type} (l : List α) : Option (List α) :=
  if l.isEmpty then none else some l

/-- Semantics of `ResourceData.GetOkExists`: the field is reported as set
exactly when it is present in the configuration, regardless of value. -/
def getOkExists {α : Type} (o : Option α) : Option α := o

/-- Modelled from the spec: the shared string-map helper `expandMetadata`
(its source file is not under `src/`) reads the resource's `metadata` map
from desired state; per the spec it is a generic, value-preserving
string-map helper. -/
def expandMetadata (m : List (String × String)) : List (String × String) := m

/-- Local tier record of the `tier` schema block shared by the price and
plan resources (all six attributes are `Optional`). -/
structure TierInput where
  up_to : Option Int
  up_to_inf : Option Bool
  flat_amount : Option Int
  flat_amount_decimal : Option Rat
  unit_amount : Option Int
  unit_amount_decimal : Option Rat
deriving DecidableEq, Repr

/-- Embedding of `stripe.PriceTierParams`: the tier parameters submitted
in a price create request (`nil` pointers are `none`). -/
structure PriceTierParams where
  upTo : Option Int
  upToInf : Option Bool
  flatAmount : Option Int
  flatAmountDecimal : Option Rat
  unitAmount : Option Int
  unitAmountDecimal : Option Rat
deriving DecidableEq, Repr

/-- Embedding of `stripe.PlanTierParams`: the tier parameters submitted
in a plan create request. -/
structure PlanTierParams where
  upTo : Option Int
  upToInf : Option Bool
  flatAmount : Option Int
  flatAmountDecimal : Option Rat
  unitAmount : Option Int
  unitAmountDecimal : Option Rat
deriving DecidableEq, Repr

/-- Embedding of the remote `stripe.PriceTier` entity returned by the
server (plain value fields, Go zero values when unset). -/
structure PriceTier where
  upTo : Int
  flatAmount : Int
  flatAmountDecimal : Rat
  unitAmount : Int
  unitAmountDecimal : Rat
deriving DecidableEq, Repr

/-- Tier record written back into local state by `flattenPriceTiers`
(the `map[string]interface ` literal of the Go code, one key per tier
attribute). -/
structure TierOutput where
  up_to : Int
  up_to_inf : Bool
  flat_amount : Int
  flat_amount_decimal : Rat
  unit_amount : Int
  unit_amount_decimal : Rat
deriving DecidableEq, Repr

/-- Embedding of `flattenPriceTiers` restricted to one tier: `up_to_inf`
is synthesized as `true` exactly when the server's `UpTo` is `0`; the
other fields are copied through unchanged. -/
def flattenPriceTier (t : PriceTier) : TierOutput :=
  { up_to := t.upTo
    up_to_inf := t.upTo == 0
    flat_amount := t.flatAmount
    flat_amount_decimal := t.flatAmountDecimal
    unit_amount := t.unitAmount
    unit_amount_decimal := t.unitAmountDecimal }

/-- Embedding of `flattenPriceTiers` (`resource_stripe_price.go`). -/
def flattenPriceTiers (ts : List PriceTier) : List TierOutput :=
  ts.map flattenPriceTier

/-- Shared `if / else if` shape of the tier amount assignments: the
integer reading wins; the decimal reading is only consulted when the
integer reading reported not-ok. -/
def amountPair (a : Option Int) (b : Option Rat) : Option Int × Option Rat :=
  match a with
  | some v => (some v, none)
  | none =>
    match b with
    | some q => (none, some q)
    | none => (none, none)

/-- Embedding of `expandPriceTier` (`resource_stripe_price.go`): `up_to`
is read with `GetOk`, `up_to_inf` and the four amount fields with
`GetOkExists`; setting both `up_to` (to a nonzero value) and `up_to_inf`
is a conflict error; within each amount pair the integer field wins. -/
def expandPriceTier (t : TierInput) : Except String PriceTierParams :=
  let upTo := getOkInt t.up_to
  let upToInf := getOkExists t.up_to_inf
  if upTo.isSome && upToInf.isSome then
    .error "up_to: conflicts with up_to_inf"
  else
    let fa := amountPair (getOkExists t.flat_amount) (getOkExists t.flat_amount_decimal)
    let ua := amountPair (getOkExists t.unit_amount) (getOkExists t.unit_amount_decimal)
    .ok { upTo := upTo, upToInf := upToInf,
          flatAmount := fa.1, flatAmountDecimal := fa.2,
          unitAmount := ua.1, unitAmountDecimal := ua.2 }

/-- Embedding of `expandPriceTiers`: expands each local tier in order;
any tier's diagnostic error aborts the expansion. -/
def expandPriceTiers : List TierInput → Except String (List PriceTierParams)
  | [] => .ok []
  | t :: ts =>
    match expandPriceTier t, expandPriceTiers ts with
    | .ok p, .ok ps => .ok (p :: ps)
    | .error e, _ => .error e
    | .ok _, .error e => .error e

/-- Embedding of `expandPlanTier` (plan resource file): like the price
version, but the four amount fields are read with `GetOk` (zero values
count as absent), not `GetOkExists`. -/
def expandPlanTier (t : TierInput) : Except String PlanTierParams :=
  let upTo := getOkInt t.up_to
  let upToInf := getOkExists t.up_to_inf
  if upTo.isSome && upToInf.isSome then
    .error "up_to: conflicts with up_to_inf"
  else
    let fa := amountPair (getOkInt t.flat_amount) (getOkRat t.flat_amount_decimal)
    let ua := amountPair (getOkInt t.unit_amount) (getOkRat t.unit_amount_decimal)
    .ok { upTo := upTo, upToInf := upToInf,
          flatAmount := fa.1, flatAmountDecimal := fa.2,
          unitAmount := ua.1, unitAmountDecimal := ua.2 }

/-- Embedding of `expandPlanTiers`. -/
def expandPlanTiers : List TierInput → Except String (List PlanTierParams)
  | [] => .ok []
  | t :: ts =>
    match expandPlanTier t, expandPlanTiers ts with
    | .ok p, .ok ps => .ok (p :: ps)
    | .error e, _ => .error e
    | .ok _, .error e => .error e

/-- Round-trip glue for the spec's `flatten(expand(tiers))` composition:
the remote `PriceTier` entity obtained when the server stores exactly the
submitted tier parameters, reading unset numeric parameters back as Go
zero values (an unbounded tier is served with `UpTo = 0`). -/
def priceTierOfParams (p : PriceTierParams) : PriceTier :=
  { upTo := p.upTo.getD 0
    flatAmount := p.flatAmount.getD 0
    flatAmountDecimal := p.flatAmountDecimal.getD 0
    unitAmount := p.unitAmount.getD 0
    unitAmountDecimal := p.unitAmountDecimal.getD 0 }

/-- Local tier record as Terraform resolves it for comparison with a
flattened result: absent attributes resolve to their zero values. -/
def tierInputResolved (t : TierInput) : TierOutput :=
  { up_to := t.up_to.getD 0
    up_to_inf := t.up_to_inf.getD false
    flat_amount := t.flat_amount.getD 0
    flat_amount_decimal := t.flat_amount_decimal.getD 0
    unit_amount := t.unit_amount.getD 0
    unit_amount_decimal := t.unit_amount_decimal.getD 0 }

example : expandPriceTier ⟨some 3, some true, none, none, none, none⟩ =
    .error "up_to: conflicts with up_to_inf" := rfl

example : (expandPriceTier ⟨some 0, some true, none, none, none, none⟩).isOk = true := rfl

/-- Dynamic value written into local state by a `d.Set` call (Go passes
`interface` values; the constructor records the Go type actually
written). -/
inductive TVal where
  | i : Int → TVal
  | b : Bool → TVal
  | s : String → TVal
  | f : Rat → TVal
  | m : List (String × String) → TVal
  | tl : List TierOutput → TVal
deriving DecidableEq, Repr

/-- Coupon desired state as declared in the configuration (`code` and
`duration` are `Required`, everything else `Optional`). -/
structure CouponInput where
  code : String
  amount_off : Option Int
  currency : Option String
  duration : String
  duration_in_months : Option Int
  max_redemptions : Option Int
  metadata : List (String × String)
  name : Option String
  percent_off : Option Rat
  redeem_by : Option String
deriving DecidableEq, Repr

/-- Embedding of `stripe.CouponParams`: the parameter object of a coupon
create request (`nil` pointers are `none`). -/
structure CouponParams where
  id : Option String
  name : Option String
  durationInMonths : Option Int
  duration : Option String
  percentOff : Option Rat
  amountOff : Option Int
  maxRedemptions : Option Int
  currency : Option String
  redeemBy : Option Int
  metadata : List (String × String)
deriving DecidableEq, Repr

/-- Modelled from the spec: the shared helper `getMapKeys` (its source
file is not under `src/`) lists a string-keyed map's keys; modelled here
in the literal order of the `validDurations` map. -/
def getMapKeys (m : List (String × Bool)) : List String := m.map Prod.fst

/-- Literal `validDurations` map of `resourceStripeCouponCreate`. -/
def validDurations : List (String × Bool) :=
  [("repeating", true), ("once", true), ("forever", true)]

/-- Error message produced for an invalid coupon duration; it names the
offending value. -/
def durationErrorMessage (d : String) : String :=
  "\"" ++ d ++ "\" is not a valid value for \"duration\", expected one of " ++
    ("( " ++ String.intercalate " | " (getMapKeys validDurations) ++ " )")

/-- Final step of the coupon create: the `redeem_by` parse (the external
`time.Parse` is the parameter `parseRFC3339`, returning the Unix
timestamp on success) and the assembled request. -/
def couponCreateLast (parseRFC3339 : String → Option Int)
    (i : CouponInput) (couponID : String) (name : Option String)
    (durationInMonths : Option Int) (duration : Option String)
    (percentOff : Option Rat) (amountOff : Option Int)
    (maxRedemptions : Option Int) (currency : Option String) :
    Except String CouponParams :=
  match getOkStr i.redeem_by with
  | some s =>
    match parseRFC3339 s with
    | none =>
      .error ("can't convert time \"" ++ s ++
        "\" to time.  Please check if it's RFC3339-compliant")
    | some t =>
      .ok { id := some couponID, name := name,
            durationInMonths := durationInMonths, duration := duration,
            percentOff := percentOff, amountOff := amountOff,
            maxRedemptions := maxRedemptions, currency := currency,
            redeemBy := some t, metadata := expandMetadata i.metadata }
  | none =>
    .ok { id := some couponID, name := name,
          durationInMonths := durationInMonths, duration := duration,
          percentOff := percentOff, amountOff := amountOff,
          maxRedemptions := maxRedemptions, currency := currency,
          redeemBy := none, metadata := expandMetadata i.metadata }

/-- Continuation of the coupon create after the duration checks (field
order follows the source; the `currency` check requires `amount_off`). -/
def couponCreateRest (parseRFC3339 : String → Option Int)
    (i : CouponInput) (couponID couponDuration : String)
    (name : Option String) (durationInMonths : Option Int) :
    Except String CouponParams :=
  let duration := if couponDuration != "" then some couponDuration else none
  let percentOff := getOkRat i.percent_off
  let amountOff := getOkInt i.amount_off
  let maxRedemptions := getOkInt i.max_redemptions
  match getOkStr i.currency with
  | some c =>
    if amountOff.isNone then
      .error "can only set currency when using amount_off"
    else
      couponCreateLast parseRFC3339 i couponID name durationInMonths
        duration percentOff amountOff maxRedemptions (some c)
  | none =>
    couponCreateLast parseRFC3339 i couponID name durationInMonths
      duration percentOff amountOff maxRedemptions none

/-- Embedding of `resourceStripeCouponCreate`.  A `.error` result is
returned before the remote `Coupons.New` call; `.ok` carries the request
that is then sent. -/
def resourceStripeCouponCreate (parseRFC3339 : String → Option Int)
    (i : CouponInput) : Except String CouponParams :=
  let couponID := i.code
  let couponDuration := i.duration
  if !((validDurations.lookup couponDuration).getD false) then
    .error (durationErrorMessage couponDuration)
  else
    let name := getOkStr i.name
    match getOkInt i.duration_in_months with
    | some dim =>
      if couponDuration != "repeating" then
        .error "can't set duration in months if event is not repeating"
      else
        couponCreateRest parseRFC3339 i couponID couponDuration name (some dim)
    | none =>
      couponCreateRest parseRFC3339 i couponID couponDuration name none

/-- Remote `stripe.Coupon` entity returned by `Coupons.Get`. -/
structure SCoupon where
  amountOff : Int
  currency : String
  duration : String
  durationInMonths : Int
  livemode : Bool
  maxRedemptions : Int
  metadata : List (String × String)
  name : String
  percentOff : Rat
  redeemBy : Int
  timesRedeemed : Int
  valid : Bool
  created : Int
deriving DecidableEq, Repr

/-- Embedding of `resourceStripeCouponRead`: the ordered list of
`d.Set(field, value)` calls it performs on a successful `Coupons.Get`. -/
def resourceStripeCouponRead (id : String) (c : SCoupon) :
    List (String × TVal) :=
  [("code", .s id),
   ("amount_off", .i c.amountOff),
   ("currency", .s c.currency),
   ("duration", .s c.duration),
   ("duration_in_months", .i c.durationInMonths),
   ("livemode", .b c.livemode),
   ("max_redemptions", .i c.maxRedemptions),
   ("metadata", .m c.metadata),
   ("name", .s c.name),
   ("percent_off", .f c.percentOff),
   ("redeem_by", .i c.redeemBy),
   ("times_redeemed", .i c.timesRedeemed),
   ("valid", .b c.valid),
   ("created", .b c.valid)]

/-- Last-known and desired coupon state for the fields
`resourceStripeCouponUpdate` consults through `HasChange`. -/
structure CouponUpdState where
  metadata : List (String × String)
  name : String
deriving DecidableEq, Repr

/-- Partial-update request of `resourceStripeCouponUpdate`: a field is
`none` exactly when it is omitted from the request. -/
structure CouponUpdateParams where
  metadata : Option (List (String × String))
  name : Option String
deriving DecidableEq, Repr

/-- Embedding of `resourceStripeCouponUpdate`: each updatable field is
included exactly when `HasChange` reports it changed. -/
def resourceStripeCouponUpdate (old new : CouponUpdState) : CouponUpdateParams :=
  { metadata := if old.metadata != new.metadata
      then some (expandMetadata new.metadata) else none
    name := if old.name != new.name then some new.name else none }

/-- Modelled from the spec: the shared helper `expandStringMap` (its
source file is not under `src/`) converts a raw configuration map into a
string-to-string map, preserving entries. -/
def expandStringMap (m : List (String × String)) : List (String × String) := m

/-- Modelled from the spec: the shared helper `expandStringList` (its
source file is not under `src/`) reads a list-of-strings field from
desired state, preserving entries and order. -/
def expandStringList (l : List String) : List String := l

/-- Embedding of `stripe.PriceRecurringParams`. -/
structure RecurringParams where
  aggregateUsage : Option String
  interval : Option String
  intervalCount : Option Int
  usageType : Option String
deriving DecidableEq, Repr

/-- Embedding of `expandPriceRecurring`: reads the recurring map's keys;
`interval_count` must parse as an integer (the external
`strconv.ParseInt` is the parameter `parseInt64`). -/
def expandPriceRecurring (parseInt64 : String → Option Int)
    (recurring : List (String × String)) : Except String RecurringParams :=
  let parsed := expandStringMap recurring
  let aggregateUsage := parsed.lookup "aggregate_usage"
  let interval := parsed.lookup "interval"
  match parsed.lookup "interval_count" with
  | some s =>
    match parseInt64 s with
    | none =>
      .error "interval_count must be a string, representing an int (e.g. \"52\")"
    | some n =>
      .ok { aggregateUsage := aggregateUsage, interval := interval,
            intervalCount := some n, usageType := parsed.lookup "usage_type" }
  | none =>
    .ok { aggregateUsage := aggregateUsage, interval := interval,
          intervalCount := none, usageType := parsed.lookup "usage_type" }

/-- Price desired state as declared in the configuration (`currency` is
`Required`; list and map fields resolve to empty when absent). -/
structure PriceInput where
  active : Option Bool
  currency : String
  metadata : List (String × String)
  nickname : Option String
  product : Option String
  recurring : List (String × String)
  unit_amount : Option Int
  unit_amount_decimal : Option Rat
  billing_scheme : Option String
  tier : List TierInput
  tiers_mode : Option String
  tax_behavior : Option String
deriving DecidableEq, Repr

/-- Embedding of `stripe.PriceParams`: the parameter object of a price
create request. -/
structure PriceParams where
  currency : Option String
  active : Option Bool
  metadata : List (String × String)
  nickname : Option String
  tiersMode : Option String
  tiers : List PriceTierParams
  product : Option String
  recurring : Option RecurringParams
  unitAmount : Option Int
  unitAmountDecimal : Option Rat
  billingScheme : Option String
  taxBehavior : Option String
deriving DecidableEq, Repr

/-- Embedding of `resourceStripePriceCreate`.  `unit_amount` and
`unit_amount_decimal` are read with `GetOkExists` (presence, not
non-zero); a `.error` result is returned before the remote `Prices.New`
call. -/
def resourceStripePriceCreate (parseInt64 : String → Option Int)
    (i : PriceInput) : Except String PriceParams :=
  let nickname := tfGet i.nickname ""
  let currency := i.currency
  let active := getOkBoolD i.active true
  let metadata := expandMetadata i.metadata
  let nicknameParam := if (getOkStr i.nickname).isSome then some nickname else none
  let tiersMode := getOkStr i.tiers_mode
  match expandPriceTiers i.tier with
  | .error e => .error e
  | .ok tiers =>
    let product := getOkStr i.product
    let recurringRes : Except String (Option RecurringParams) :=
      match getOkList i.recurring with
      | some r =>
        match expandPriceRecurring parseInt64 r with
        | .error e => .error e
        | .ok p => .ok (some p)
      | none => .ok none
    match recurringRes with
    | .error e => .error e
    | .ok recurring =>
      let unitAmount := getOkExists i.unit_amount
      let unitAmountDecimal := getOkExists i.unit_amount_decimal
      let billingScheme := getOkStr i.billing_scheme
      let taxBehavior := getOkStrD i.tax_behavior "unspecified"
      .ok { currency := some currency, active := active, metadata := metadata,
            nickname := nicknameParam, tiersMode := tiersMode, tiers := tiers,
            product := product, recurring := recurring,
            unitAmount := unitAmount, unitAmountDecimal := unitAmountDecimal,
            billingScheme := billingScheme, taxBehavior := taxBehavior }

/-- Remote `stripe.Price` entity returned by `Prices.Get` (`recurring`
holds the server's recurring data; `product` is the optional expanded
product pointer's ID). -/
structure SPrice where
  id : String
  active : Bool
  created : Int
  currency : String
  livemode : Bool
  metadata : List (String × String)
  nickname : String
  product : Option String
  recurring : List (String × String)
  unitAmount : Int
  unitAmountDecimal : Rat
  tiersMode : String
  tiers : List PriceTier
  billingScheme : String
  taxBehavior : String
deriving DecidableEq, Repr

/-- Embedding of `resourceStripePriceRead`: the ordered list of
`d.Set(field, value)` calls it performs on a successful `Prices.Get`
(the `product` write only happens when the pointer is non-nil). -/
def resourceStripePriceRead (pr : SPrice) : List (String × TVal) :=
  [("price_id", .s pr.id),
   ("active", .b pr.active),
   ("created", .i pr.created),
   ("currency", .s pr.currency),
   ("livemode", .b pr.livemode),
   ("metadata", .m pr.metadata),
   ("nickname", .s pr.nickname)] ++
  (match pr.product with
   | some pid => [("product", TVal.s pid)]
   | none => []) ++
  [("recurring", .b pr.active),
   ("unit_amount", .i pr.unitAmount),
   ("unit_amount_decimal", .f pr.unitAmountDecimal),
   ("tiers_mode", .s pr.tiersMode),
   ("tier", .tl (flattenPriceTiers pr.tiers)),
   ("billing_scheme", .s pr.billingScheme),
   ("tax_behavior", .s pr.taxBehavior)]

/-- Remote verb a delete operation invokes on the Stripe client: a
partial `Update`, or a hard `Del`. -/
inductive RemoteVerb where
  | update : RemoteVerb
  | del : RemoteVerb
deriving DecidableEq, Repr

/-- Outcome of a delete operation: the remote verb issued, the `Active`
parameter carried by the request, and the local ID afterwards (`.ok ""`
means the ID was cleared; `.error e` means the remote call failed and the
ID is left intact). -/
structure DeleteOutcome where
  verb : RemoteVerb
  activeParam : Option Bool
  finalId : Except String String
deriving Repr

/-- Embedding of `resourceStripePriceDelete`: issues `Prices.Update` with
`Active = false` and clears the ID on success (`remoteErr` is the remote
client's response). -/
def resourceStripePriceDelete (id : String) (remoteErr : Option String) :
    DeleteOutcome :=
  { verb := .update, activeParam := some false,
    finalId := match remoteErr with
      | some e => .error e
      | none => .ok "" }

/-- Embedding of `resourceStripePlanDelete`: issues `Plans.Del` and
clears the ID on success. -/
def resourceStripePlanDelete (id : String) (remoteErr : Option String) :
    DeleteOutcome :=
  { verb := .del, activeParam := none,
    finalId := match remoteErr with
      | some e => .error e
      | none => .ok "" }

/-- Local `transform_usage` block entry of the plan schema. -/
structure TransformUsageInput where
  divide_by : Int
  round : String
deriving DecidableEq, Repr

/-- Embedding of `stripe.PlanTransformUsageParams` (both fields are
always populated by the expander). -/
structure TransformUsageParams where
  divideBy : Int
  round : String
deriving DecidableEq, Repr

/-- Embedding of `expandPlanTransformUsage`: `nil` for an empty list,
otherwise the first (schema enforces at most one) entry. -/
def expandPlanTransformUsage : List TransformUsageInput → Option TransformUsageParams
  | [] => none
  | t :: _ => some { divideBy := t.divide_by, round := t.round }

/-- Plan desired state as declared in the configuration (`currency`,
`interval` and `product` are `Required`; `active` defaults to `true`,
`billing_scheme` to `"per_unit"`, `interval_count` to `1` and
`usage_type` to `"licensed"`). -/
structure PlanInput where
  plan_id : Option String
  active : Option Bool
  amount : Option Int
  amount_decimal : Option Rat
  currency : String
  interval : String
  product : String
  aggregate_usage : Option String
  billing_scheme : Option String
  interval_count : Option Int
  metadata : List (String × String)
  nickname : Option String
  tier : List TierInput
  tiers_mode : Option String
  transform_usage : List TransformUsageInput
  trial_period_days : Option Int
  usage_type : Option String
deriving DecidableEq, Repr

/-- Embedding of `stripe.PlanParams`: the parameter object of a plan
create request. -/
structure PlanParams where
  id : Option String
  interval : Option String
  productID : Option String
  currency : Option String
  amount : Option Int
  amountDecimal : Option Rat
  active : Option Bool
  aggregateUsage : Option String
  billingScheme : Option String
  intervalCount : Option Int
  metadata : List (String × String)
  nickname : Option String
  tiersMode : Option String
  tiers : List PlanTierParams
  transformUsage : Option TransformUsageParams
  trialPeriodDays : Option Int
  usageType : Option String
deriving DecidableEq, Repr

/-- Embedding of `resourceStripePlanCreate`: `AmountDecimal` is
populated when the resolved decimal amount is positive, otherwise
`Amount`; a `"tiered"` billing scheme then nils both; a `.error` result
is returned before the remote `Plans.New` call. -/
def resourceStripePlanCreate (i : PlanInput) : Except String PlanParams :=
  let planNickname := tfGet i.nickname ""
  let planInterval := i.interval
  let planCurrency := i.currency
  let planProductID := i.product
  let amount := tfGet i.amount 0
  let amountDecimal := tfGet i.amount_decimal 0
  let amounts : Option Int × Option Rat :=
    if amountDecimal > 0 then (none, some amountDecimal) else (some amount, none)
  let planID := getOkStr i.plan_id
  let active := getOkBoolD i.active true
  let aggregateUsage := getOkStr i.aggregate_usage
  let billingScheme := getOkStrD i.billing_scheme "per_unit"
  let amounts :=
    match billingScheme with
    | some bs => if bs == "tiered" then ((none : Option Int), (none : Option Rat)) else amounts
    | none => amounts
  let intervalCount := getOkIntD i.interval_count 1
  let metadata := expandMetadata i.metadata
  let nicknameParam := if (getOkStr i.nickname).isSome then some planNickname else none
  let tiersMode := getOkStr i.tiers_mode
  match expandPlanTiers i.tier with
  | .error e => .error e
  | .ok tiers =>
    let transformUsage :=
      match getOkList i.transform_usage with
      | some l => expandPlanTransformUsage l
      | none => none
    let trialPeriodDays := getOkInt i.trial_period_days
    let usageType := getOkStrD i.usage_type "licensed"
    .ok { id := planID, interval := some planInterval,
          productID := some planProductID, currency := some planCurrency,
          amount := amounts.1, amountDecimal := amounts.2, active := active,
          aggregateUsage := aggregateUsage, billingScheme := billingScheme,
          intervalCount := intervalCount, metadata := metadata,
          nickname := nicknameParam, tiersMode := tiersMode, tiers := tiers,
          transformUsage := transformUsage, trialPeriodDays := trialPeriodDays,
          usageType := usageType }

/-- Product desired state as declared in the configuration (`name` and
`productType` are `Required`). -/
structure ProductInput where
  product_id : Option String
  name : String
  productType : String
  active : Option Bool
  attributes : List String
  metadata : List (String × String)
  statement_descriptor : Option String
  unit_label : Option String
deriving DecidableEq, Repr

/-- Embedding of `stripe.ProductParams`: the parameter object of a
product create request. -/
structure ProductParams where
  name : Option String
  type : Option String
  id : Option String
  active : Option Bool
  attributes : List String
  metadata : List (String × String)
  statementDescriptor : Option String
  unitLabel : Option String
deriving DecidableEq, Repr

/-- Embedding of `resourceStripeProductCreate`: the `type` switch admits
only `"good"` and `"service"`; any other string is an `unknown type`
error returned before the remote `Products.New` call. -/
def resourceStripeProductCreate (i : ProductInput) : Except String ProductParams :=
  let productName := i.name
  let productType := i.productType
  let productStatementDescriptor := tfGet i.statement_descriptor ""
  let productUnitLabel := tfGet i.unit_label ""
  if productType == "good" || productType == "service" then
    .ok { name := some productName, type := some productType,
          id := getOkStr i.product_id, active := getOkBoolD i.active true,
          attributes := expandStringList i.attributes,
          metadata := expandMetadata i.metadata,
          statementDescriptor :=
            if productStatementDescriptor != "" then some productStatementDescriptor else none,
          unitLabel := if productUnitLabel != "" then some productUnitLabel else none }
  else
    .error ("unknown type: " ++ productType)

/-- Tax rate state for the fields `resourceStripeTaxRateUpdate` consults
through `HasChange`. -/
structure TaxRateState where
  active : Bool
  description : String
  display_name : String
  jurisdiction : String
  metadata : List (String × String)
deriving DecidableEq, Repr

/-- Partial-update request of `resourceStripeTaxRateUpdate`: a field is
`none` exactly when it is omitted from the request. -/
structure TaxRateUpdateParams where
  active : Option Bool
  description : Option String
  displayName : Option String
  jurisdiction : Option String
  metadata : Option (List (String × String))
deriving DecidableEq, Repr

/-- Semantics of `ResourceData.HasChange` for the tax rate resource:
string-keyed change lookup; a key that is not in the schema never
reports a change. -/
def taxRateHasChange (old new : TaxRateState) : String → Bool
  | "active" => old.active != new.active
  | "description" => old.description != new.description
  | "display_name" => old.display_name != new.display_name
  | "jurisdiction" => old.jurisdiction != new.jurisdiction
  | "metadata" => old.metadata != new.metadata
  | _ => false

/-- Embedding of `resourceStripeTaxRateUpdate`: each updatable field is
included exactly when `HasChange` on the key the source passes reports a
change; the display-name check passes the literal key `"diplay_name"`,
exactly as the source spells it. -/
def resourceStripeTaxRateUpdate (old new : TaxRateState) : TaxRateUpdateParams :=
  { active := if taxRateHasChange old new "active" then some new.active else none
    description := if taxRateHasChange old new "description"
      then some new.description else none
    displayName := if taxRateHasChange old new "diplay_name"
      then some new.display_name else none
    jurisdiction := if taxRateHasChange old new "jurisdiction"
      then some new.jurisdiction else none
    metadata := if taxRateHasChange old new "metadata"
      then some (expandMetadata new.metadata) else none }

/-- Concrete remote coupon used to evaluate the coupon read slip. -/
def sampleRemoteCoupon : SCoupon :=
  ⟨2500, "usd", "once", 0, false, 10, [], "Spring", 0, 0, 3, false, 999⟩

/-- Concrete remote price used to evaluate the price read slip. -/
def sampleRemotePrice : SPrice :=
  ⟨"price_1", true, 555, "usd", false, [], "basic", some "prod_1",
   [("interval", "month")], 1000, 0, "", [], "per_unit", "unspecified"⟩

/-- Last-known tax rate state for the display-name update evaluation. -/
def taxRateOld : TaxRateState := ⟨true, "", "Old name", "", []⟩

/-- Desired tax rate state differing from `taxRateOld` only in
`display_name`. -/
def taxRateNew : TaxRateState := ⟨true, "", "New name", "", []⟩

/-- Last-known coupon state for the name-only update evaluation. -/
def couponUpdOld : CouponUpdState := ⟨[("k", "v")], "Old"⟩

/-- Desired coupon state differing from `couponUpdOld` only in `name`. -/
def couponUpdNew : CouponUpdState := ⟨[("k", "v")], "New"⟩

/-- Concrete tier setting both `up_to` (explicitly zero) and
`up_to_inf`. -/
def tierZeroUpToBoth : TierInput := ⟨some 0, some true, none, none, none, none⟩

/-- Concrete tier setting `up_to` to a nonzero value alongside
`up_to_inf`. -/
def tierNonzeroUpToBoth : TierInput := ⟨some 5, some false, none, none, none, none⟩

/-- Concrete price input carrying `tierZeroUpToBoth`. -/
def priceInputZeroUpToTier : PriceInput :=
  ⟨none, "usd", [], none, none, [], none, none, none, [tierZeroUpToBoth], none, none⟩

/-- Concrete tier setting both `flat_amount` and its decimal
companion. -/
def tierBothFlatAmounts : TierInput :=
  ⟨none, none, some 3, some (7 : Rat), none, none⟩

/-- Concrete coupon input whose `amount_off` is explicitly zero. -/
def couponZeroAmountOff : CouponInput :=
  ⟨"SAVE", some 0, none, "once", none, none, [], none, none, none⟩

/-- Concrete coupon input with a valid duration but a
`duration_in_months` that conflicts with it. -/
def couponOnceWithMonths : CouponInput :=
  ⟨"C8", none, none, "once", some 2, none, [], none, none, none⟩

/-- Concrete coupon input whose `currency` is present but empty, with no
`amount_off`. -/
def couponEmptyCurrency : CouponInput :=
  ⟨"C9", none, some "", "once", none, none, [], none, none, none⟩

/-- Concrete coupon input used to witness a successful create. -/
def couponValidInput : CouponInput :=
  ⟨"OK", some 300, some "eur", "repeating", some 2, none, [], some "Deal", none, none⟩

/-- Concrete plan input whose billing scheme is `"tiered"`. -/
def planTieredInput : PlanInput :=
  ⟨none, none, none, none, "usd", "month", "prod_1", none, some "tiered", none,
   [], none, [], none, [], none, none⟩

/-- Create request produced for `planTieredInput`. -/
def planTieredReq : PlanParams :=
  ⟨none, some "month", some "prod_1", some "usd", none, none, some true, none,
   some "tiered", some 1, [], none, none, [], none, none, some "licensed"⟩

/-- Concrete plan input with an integer amount and default billing
scheme. -/
def planAmountInput : PlanInput :=
  ⟨none, none, some 100, none, "usd", "month", "prod_1", none, none, none,
   [], none, [], none, [], none, none⟩

/-- Create request produced for `planAmountInput`. -/
def planAmountReq : PlanParams :=
  ⟨none, some "month", some "prod_1", some "usd", some 100, none, some true, none,
   some "per_unit", some 1, [], none, none, [], none, none, some "licensed"⟩

/-- Concrete price input whose `unit_amount` is explicitly zero. -/
def priceZeroUnitAmount : PriceInput :=
  ⟨none, "usd", [], none, none, [], some 0, none, none, [], none, none⟩

/-- Create request produced for `priceZeroUnitAmount`. -/
def priceZeroUnitAmountReq : PriceParams :=
  ⟨some "usd", some true, [], none, none, [], none, none, some 0, none, none,
   some "unspecified"⟩

/-- Create request produced for `couponZeroAmountOff`: the zero
`amount_off` is omitted. -/
def couponZeroAmountOffReq : CouponParams :=
  ⟨some "SAVE", none, none, some "once", none, none, none, none, none, []⟩

/-- Concrete coupon input with an invalid duration string. -/
def couponBadDuration : CouponInput :=
  ⟨"BAD", none, none, "weekly", none, none, [], none, none, none⟩

/-- Concrete coupon input with a non-empty `currency` and no
`amount_off`. -/
def couponCurrencyNoAmount : CouponInput :=
  ⟨"C9W", none, some "eur", "once", none, none, [], none, none, none⟩

/-- Tier value the spec predicts for `flatten(expand(tier))`: the
resolved local tier with `up_to_inf` reported as `true` exactly when the
resolved `up_to` is zero. -/
def roundTripExpected (t : TierInput) : TierOutput :=
  { up_to := t.up_to.getD 0
    up_to_inf := t.up_to.getD 0 == 0
    flat_amount := t.flat_amount.getD 0
    flat_amount_decimal := t.flat_amount_decimal.getD 0
    unit_amount := t.unit_amount.getD 0
    unit_amount_decimal := t.unit_amount_decimal.getD 0 }

/-- Concrete two-tier list for the round-trip witness: a bounded tier
with a flat amount, and an unbounded tier with a decimal unit amount. -/
def roundWitnessTiers : List TierInput :=
  [⟨some 10, none, some 3, none, none, none⟩,
   ⟨none, some true, none, none, none, some (9 : Rat)⟩]

/-- Expanded tier parameters of `roundWitnessTiers`. -/
def roundWitnessParams : List PriceTierParams :=
  [⟨some 10, none, some 3, none, none, none⟩,
   ⟨none, some true, none, none, none, some (9 : Rat)⟩]

lemma amountPair_fst (a : Option Int) (b : Option Rat) :
    (amountPair a b).1 = a := by
  cases a <;> cases b <;> simp [amountPair]

lemma amountPair_not_both (a : Option Int) (b : Option Rat) :
    ¬((amountPair a b).1.isSome = true ∧ (amountPair a b).2.isSome = true) := by
  cases a <;> cases b <;> simp [amountPair]

lemma amountPair_snd_getD (a : Option Int) (b : Option Rat)
    (h : ¬(a.isSome = true ∧ b.isSome = true)) :
    ((amountPair a b).2).getD 0 = b.getD 0 := by
  cases a <;> cases b <;> simp_all [amountPair]

lemma getOkInt_getD (o : Option Int) : (getOkInt o).getD 0 = o.getD 0 := by
  cases o with
  | none => rfl
  | some v =>
    simp only [getOkInt, getOkIntD, tfGet, Option.getD_some]
    by_cases hv : v = 0 <;> simp [hv]

lemma expandPriceTiers_mem {l : List TierInput} {ps : List PriceTierParams}
    (h : expandPriceTiers l = .ok ps) {p : PriceTierParams} (hp : p ∈ ps) :
    ∃ t ∈ l, expandPriceTier t = .ok p := by
  induction l generalizing ps with
  | nil =>
    simp only [expandPriceTiers, Except.ok.injEq] at h
    subst h
    cases hp
  | cons a l ih =>
    simp only [expandPriceTiers] at h
    cases ha : expandPriceTier a with
    | error e => rw [ha] at h; cases h
    | ok q =>
      rw [ha] at h
      cases hl : expandPriceTiers l with
      | error e => rw [hl] at h; cases h
      | ok qs =>
        rw [hl] at h
        cases h
        cases hp with
        | head => exact ⟨a, List.mem_cons_self a l, ha⟩
        | tail _ hmem =>
          obtain ⟨t, htl, ht⟩ := ih hl hmem
          exact ⟨t, List.mem_cons_of_mem a htl, ht⟩

lemma expandPlanTiers_mem {l : List TierInput} {ps : List PlanTierParams}
    (h : expandPlanTiers l = .ok ps) {p : PlanTierParams} (hp : p ∈ ps) :
    ∃ t ∈ l, expandPlanTier t = .ok p := by
  induction l generalizing ps with
  | nil =>
    simp only [expandPlanTiers, Except.ok.injEq] at h
    subst h
    cases hp
  | cons a l ih =>
    simp only [expandPlanTiers] at h
    cases ha : expandPlanTier a with
    | error e => rw [ha] at h; cases h
    | ok q =>
      rw [ha] at h
      cases hl : expandPlanTiers l with
      | error e => rw [hl] at h; cases h
      | ok qs =>
        rw [hl] at h
        cases h
        cases hp with
        | head => exact ⟨a, List.mem_cons_self a l, ha⟩
        | tail _ hmem =>
          obtain ⟨t, htl, ht⟩ := ih hl hmem
          exact ⟨t, List.mem_cons_of_mem a htl, ht⟩

lemma expandPriceTiers_error_of_mem {l : List TierInput} {t : TierInput}
    (hmem : t ∈ l) {e : String} (ht : expandPriceTier t = .error e) :
    ∃ e2, expandPriceTiers l = .error e2 := by
  induction l with
  | nil => cases hmem
  | cons a l ih =>
    cases hmem with
    | head =>
      refine ⟨e, ?_⟩
      simp only [expandPriceTiers, ht]
    | tail _ hmem =>
      obtain ⟨e2, he2⟩ := ih hmem
      cases ha : expandPriceTier a with
      | error e3 => exact ⟨e3, by simp only [expandPriceTiers, ha]⟩
      | ok q => exact ⟨e2, by simp only [expandPriceTiers, ha, he2]⟩

lemma expandPlanTiers_error_of_mem {l : List TierInput} {t : TierInput}
    (hmem : t ∈ l) {e : String} (ht : expandPlanTier t = .error e) :
    ∃ e2, expandPlanTiers l = .error e2 := by
  induction l with
  | nil => cases hmem
  | cons a l ih =>
    cases hmem with
    | head =>
      refine ⟨e, ?_⟩
      simp only [expandPlanTiers, ht]
    | tail _ hmem =>
      obtain ⟨e2, he2⟩ := ih hmem
      cases ha : expandPlanTier a with
      | error e3 => exact ⟨e3, by simp only [expandPlanTiers, ha]⟩
      | ok q => exact ⟨e2, by simp only [expandPlanTiers, ha, he2]⟩


/-- C1: a successful Read must overwrite every local field with the
server's value for that same field.  The code does not: coupon Read
writes the server's `Valid` boolean into the local `created` field, and
price Read writes the server's `Active` boolean into the local
`recurring` field, so neither field receives the server's value. -/
theorem read_overwrites_mismatched_fields :
    (resourceStripeCouponRead "c1" sampleRemoteCoupon).lookup "created" =
      some (.b false) ∧
    (resourceStripeCouponRead "c1" sampleRemoteCoupon).lookup "created" ≠
      some (.i sampleRemoteCoupon.created) ∧
    (resourceStripePriceRead sampleRemotePrice).lookup "recurring" =
      some (.b true) ∧
    (resourceStripePriceRead sampleRemotePrice).lookup "recurring" ≠
      some (.m sampleRemotePrice.recurring) := by
  decide

/-- C2: Update must include an updatable field iff it changed.  For the
coupon, a name-only change produces a request holding exactly the name.
For the tax rate, a display-name-only change produces an entirely empty
request: the source consults `HasChange` with the misspelled key
`"diplay_name"`, which never reports a change, so the new display name is
omitted. -/
theorem taxRateUpdate_drops_displayName :
    resourceStripeTaxRateUpdate taxRateOld taxRateNew =
      ⟨none, none, none, none, none⟩ ∧
    taxRateOld.display_name ≠ taxRateNew.display_name ∧
    resourceStripeCouponUpdate couponUpdOld couponUpdNew =
      ⟨none, some "New"⟩ := by
  decide

/-- C4 counterexample: the plan Delete issues the hard `Plans.Del` call,
not a deactivating update, refuting the claim that neither price nor plan
Delete ever issues a hard remote delete. -/
theorem planDelete_hard_delete_counterexample :
    (resourceStripePlanDelete "plan_1" none).verb = RemoteVerb.del ∧
    (resourceStripePlanDelete "plan_1" none).verb ≠ RemoteVerb.update ∧
    (resourceStripePlanDelete "plan_1" none).activeParam ≠ some false := by
  refine ⟨rfl, ?_, ?_⟩ <;> decide

/-- C4 amended: price Delete performs a soft deactivation (an update
request with `active = false`) and clears the local ID on success; plan
Delete instead issues the hard `Plans.Del` call and clears the local ID
on success. -/
theorem priceDelete_soft_planDelete_hard (id : String) (remoteErr : Option String) :
    (resourceStripePriceDelete id remoteErr).verb = RemoteVerb.update ∧
    (resourceStripePriceDelete id remoteErr).activeParam = some false ∧
    (resourceStripePriceDelete id none).finalId = .ok "" ∧
    (resourceStripePlanDelete id remoteErr).verb = RemoteVerb.del ∧
    (resourceStripePlanDelete id none).finalId = .ok "" :=
  ⟨rfl, rfl, rfl, rfl, rfl⟩

/-- C10: a product create whose `type` is neither `"good"` nor
`"service"` returns the local `unknown type` error naming the value, and
no create request is sent to the remote client. -/
theorem productCreate_unknown_type (i : ProductInput)
    (hg : i.productType ≠ "good") (hs : i.productType ≠ "service") :
    resourceStripeProductCreate i = .error ("unknown type: " ++ i.productType) := by
  unfold resourceStripeProductCreate
  rw [if_neg]
  simp [hg, hs]

/-- Witness for the unknown-type theorem at the concrete type
`"widget"`. -/
theorem productCreate_unknown_type_witness :
    resourceStripeProductCreate ⟨none, "Widget", "widget", none, [], [], none, none⟩ =
      .error ("unknown type: " ++ "widget") :=
  productCreate_unknown_type ⟨none, "Widget", "widget", none, [], [], none, none⟩
    (by decide) (by decide)

lemma getOkInt_some_of_ne {v : Int} (hv : v ≠ 0) : getOkInt (some v) = some v := by
  simp [getOkInt, getOkIntD, tfGet, hv]

/-- C7 counterexample: a tier with `up_to` explicitly set to `0` and
`up_to_inf` set passes expansion (price and plan) without a conflict
error, and a price create carrying it sends a create request. -/
theorem tier_conflict_counterexample :
    tierZeroUpToBoth.up_to.isSome = true ∧
    tierZeroUpToBoth.up_to_inf.isSome = true ∧
    (expandPriceTier tierZeroUpToBoth).isOk = true ∧
    (expandPlanTier tierZeroUpToBoth).isOk = true ∧
    (resourceStripePriceCreate (fun _ => none) priceInputZeroUpToTier).isOk = true :=
  ⟨rfl, rfl, rfl, rfl, rfl⟩

/-- C7 amended: for a tier whose `up_to` is set to a nonzero value while
`up_to_inf` is also explicitly set, expansion fails with the conflict
error (price and plan), and any price or plan create carrying such a
tier aborts before the remote call; a tier whose `up_to` is explicitly
zero is treated as not having set an upper bound. -/
theorem tier_conflict_nonzero_upTo (t : TierInput)
    (h1 : t.up_to.isSome = true) (h0 : t.up_to.getD 0 ≠ 0)
    (h2 : t.up_to_inf.isSome = true) :
    expandPriceTier t = .error "up_to: conflicts with up_to_inf" ∧
    expandPlanTier t = .error "up_to: conflicts with up_to_inf" ∧
    (∀ pf (i : PriceInput), t ∈ i.tier →
      ∃ e, resourceStripePriceCreate pf i = .error e) ∧
    (∀ i : PlanInput, t ∈ i.tier →
      ∃ e, resourceStripePlanCreate i = .error e) := by
  obtain ⟨v, hv⟩ := Option.isSome_iff_exists.mp h1
  rw [hv, Option.getD_some] at h0
  have hg : getOkInt t.up_to = some v := by rw [hv]; exact getOkInt_some_of_ne h0
  have hguard : ((getOkInt t.up_to).isSome && (getOkExists t.up_to_inf).isSome) = true := by
    rw [hg]
    simp [getOkExists, h2]
  have hprice : expandPriceTier t = .error "up_to: conflicts with up_to_inf" := by
    unfold expandPriceTier
    simp only [getOkExists] at hguard ⊢
    rw [if_pos hguard]
  have hplan : expandPlanTier t = .error "up_to: conflicts with up_to_inf" := by
    unfold expandPlanTier
    simp only [getOkExists] at hguard ⊢
    rw [if_pos hguard]
  refine ⟨hprice, hplan, ?_, ?_⟩
  · intro pf i hmem
    obtain ⟨e2, he2⟩ := expandPriceTiers_error_of_mem hmem hprice
    exact ⟨e2, by simp only [resourceStripePriceCreate, he2]⟩
  · intro i hmem
    obtain ⟨e2, he2⟩ := expandPlanTiers_error_of_mem hmem hplan
    exact ⟨e2, by simp only [resourceStripePlanCreate, he2]⟩

/-- Witness for the tier conflict theorem at a concrete tier with
`up_to = 5` and `up_to_inf = false`. -/
theorem tier_conflict_nonzero_upTo_witness :
    expandPriceTier tierNonzeroUpToBoth = .error "up_to: conflicts with up_to_inf" ∧
    expandPlanTier tierNonzeroUpToBoth = .error "up_to: conflicts with up_to_inf" ∧
    (∀ pf (i : PriceInput), tierNonzeroUpToBoth ∈ i.tier →
      ∃ e, resourceStripePriceCreate pf i = .error e) ∧
    (∀ i : PlanInput, tierNonzeroUpToBoth ∈ i.tier →
      ∃ e, resourceStripePlanCreate i = .error e) :=
  tier_conflict_nonzero_upTo tierNonzeroUpToBoth (by decide) (by decide) (by decide)


lemma priceTier_roundtrip_one (t : TierInput) (p : PriceTierParams)
    (h : expandPriceTier t = .ok p)
    (hf : ¬(t.flat_amount.isSome = true ∧ t.flat_amount_decimal.isSome = true))
    (hu : ¬(t.unit_amount.isSome = true ∧ t.unit_amount_decimal.isSome = true)) :
    flattenPriceTier (priceTierOfParams p) = roundTripExpected t := by
  simp only [expandPriceTier, getOkExists] at h
  split at h
  · exact Except.noConfusion h
  · injection h with h
    subst h
    simp only [flattenPriceTier, priceTierOfParams, roundTripExpected,
      TierOutput.mk.injEq]
    refine ⟨getOkInt_getD t.up_to, ?_, ?_, ?_, ?_, ?_⟩
    · rw [getOkInt_getD]
    · rw [amountPair_fst]
    · exact amountPair_snd_getD _ _ hf
    · rw [amountPair_fst]
    · exact amountPair_snd_getD _ _ hu

/-- C6 amended: a tier list whose expansion passes validation and in
which no tier sets both members of an amount pair round-trips through
`flatten(expand(tiers))` (reading unset submitted parameters back as Go
zero values), reproducing each tier except that `up_to_inf` is reported
as `true` exactly when the resolved `up_to` is zero.  A tier that sets
both members of an amount pair still passes expansion, but its decimal
member is dropped, so such a list is not reproduced. -/
theorem priceTiers_roundtrip (l : List TierInput) (ps : List PriceTierParams)
    (h : expandPriceTiers l = .ok ps)
    (hpair : ∀ t ∈ l,
      ¬(t.flat_amount.isSome = true ∧ t.flat_amount_decimal.isSome = true) ∧
      ¬(t.unit_amount.isSome = true ∧ t.unit_amount_decimal.isSome = true)) :
    flattenPriceTiers (ps.map priceTierOfParams) = l.map roundTripExpected := by
  induction l generalizing ps with
  | nil =>
    simp only [expandPriceTiers, Except.ok.injEq] at h
    subst h
    rfl
  | cons a l ih =>
    simp only [expandPriceTiers] at h
    cases ha : expandPriceTier a with
    | error e => rw [ha] at h; cases h
    | ok q =>
      rw [ha] at h
      cases hl : expandPriceTiers l with
      | error e => rw [hl] at h; cases h
      | ok qs =>
        rw [hl] at h
        cases h
        have h1 := priceTier_roundtrip_one a q ha
          (hpair a (List.mem_cons_self a l)).1 (hpair a (List.mem_cons_self a l)).2
        have h2 := ih qs hl (fun t ht => hpair t (List.mem_cons_of_mem a ht))
        simp only [flattenPriceTiers, List.map_cons] at h2 ⊢
        rw [h1, h2]

/-- Witness for the round-trip theorem on `roundWitnessTiers`. -/
theorem priceTiers_roundtrip_witness :
    flattenPriceTiers (roundWitnessParams.map priceTierOfParams) =
      [⟨10, false, 3, 0, 0, 0⟩, ⟨0, true, 0, 0, 0, (9 : Rat)⟩] :=
  (priceTiers_roundtrip roundWitnessTiers roundWitnessParams rfl (by decide)).trans
    (by decide)

/-- C6 counterexample: a tier setting both `flat_amount = 3` and
`flat_amount_decimal = 7` passes expansion, yet the round trip returns
`flat_amount_decimal = 0` rather than the original `7`, so the tier list
is not reproduced field for field. -/
theorem priceTiers_roundtrip_counterexample :
    (expandPriceTiers [tierBothFlatAmounts]).toOption.map
        (fun ps => flattenPriceTiers (ps.map priceTierOfParams)) =
      some [⟨0, true, 3, 0, 0, 0⟩] ∧
    (tierInputResolved tierBothFlatAmounts).flat_amount_decimal = (7 : Rat) ∧
    ((0 : Rat) ≠ (7 : Rat)) := by
  refine ⟨by decide, by decide, by decide⟩


lemma couponCreateLast_amountOff (pf : String → Option Int) (i : CouponInput)
    (cid : String) (nm : Option String) (dim : Option Int) (dur : Option String)
    (poff : Option Rat) (aoff : Option Int) (mr : Option Int)
    (cur : Option String) (req : CouponParams)
    (h : couponCreateLast pf i cid nm dim dur poff aoff mr cur = .ok req) :
    req.amountOff = aoff := by
  simp only [couponCreateLast] at h
  split at h
  · split at h
    · exact Except.noConfusion h
    · injection h with h
      subst h
      rfl
  · injection h with h
    subst h
    rfl

lemma couponCreateRest_amountOff (pf : String → Option Int) (i : CouponInput)
    (cid cdur : String) (nm : Option String) (dim : Option Int)
    (req : CouponParams)
    (h : couponCreateRest pf i cid cdur nm dim = .ok req) :
    req.amountOff = getOkInt i.amount_off := by
  simp only [couponCreateRest] at h
  split at h
  · split at h
    · exact Except.noConfusion h
    · exact couponCreateLast_amountOff _ _ _ _ _ _ _ _ _ _ _ h
  · exact couponCreateLast_amountOff _ _ _ _ _ _ _ _ _ _ _ h

lemma couponCreate_amountOff (pf : String → Option Int) (i : CouponInput)
    (req : CouponParams)
    (h : resourceStripeCouponCreate pf i = .ok req) :
    req.amountOff = getOkInt i.amount_off := by
  simp only [resourceStripeCouponCreate] at h
  split at h
  · exact Except.noConfusion h
  · split at h
    · split at h
      · exact Except.noConfusion h
      · exact couponCreateRest_amountOff _ _ _ _ _ _ _ h
    · exact couponCreateRest_amountOff _ _ _ _ _ _ _ h

lemma couponCreateLast_isOk (pf : String → Option Int) (i : CouponInput)
    (cid : String) (nm : Option String) (dim : Option Int) (dur : Option String)
    (poff : Option Rat) (aoff : Option Int) (mr : Option Int)
    (cur : Option String)
    (hr : ∀ s, getOkStr i.redeem_by = some s → (pf s).isSome = true) :
    (couponCreateLast pf i cid nm dim dur poff aoff mr cur).isOk = true := by
  simp only [couponCreateLast]
  cases hrb : getOkStr i.redeem_by with
  | none => rfl
  | some s =>
    obtain ⟨t, ht⟩ := Option.isSome_iff_exists.mp (hr s hrb)
    simp only [ht]
    rfl

lemma couponCreateRest_isOk (pf : String → Option Int) (i : CouponInput)
    (cid cdur : String) (nm : Option String) (dim : Option Int)
    (hcur : (getOkStr i.currency).isSome = true → (getOkInt i.amount_off).isSome = true)
    (hr : ∀ s, getOkStr i.redeem_by = some s → (pf s).isSome = true) :
    (couponCreateRest pf i cid cdur nm dim).isOk = true := by
  simp only [couponCreateRest]
  cases hc : getOkStr i.currency with
  | none => exact couponCreateLast_isOk _ _ _ _ _ _ _ _ _ _ hr
  | some c =>
    have ha : (getOkInt i.amount_off).isNone = false := by
      have := hcur (by rw [hc]; rfl)
      cases hx : getOkInt i.amount_off
      · rw [hx] at this; exact absurd this (by simp)
      · rfl
    simp only [ha, Bool.false_eq_true, if_false]
    exact couponCreateLast_isOk _ _ _ _ _ _ _ _ _ _ hr

lemma couponCreateRest_currency_error (pf : String → Option Int) (i : CouponInput)
    (cid cdur : String) (nm : Option String) (dim : Option Int)
    (hc : (getOkStr i.currency).isSome = true)
    (ha : getOkInt i.amount_off = none) :
    couponCreateRest pf i cid cdur nm dim =
      .error "can only set currency when using amount_off" := by
  simp only [couponCreateRest]
  obtain ⟨c, hc2⟩ := Option.isSome_iff_exists.mp hc
  simp only [hc2, ha]
  rfl

/-- C3 counterexample: a coupon `amount_off` explicitly set to `0` is
dropped from the create request (the source reads it with `GetOk`, whose
test is non-zero, not presence), and a plan tier `flat_amount` of `0` is
likewise dropped; the claim says both would be included. -/
theorem couponCreate_zero_amountOff_counterexample :
    couponZeroAmountOff.amount_off = some 0 ∧
    (resourceStripeCouponCreate (fun _ => none) couponZeroAmountOff).toOption.map
      CouponParams.amountOff = some none ∧
    (expandPlanTier ⟨none, none, some 0, none, none, none⟩).toOption.map
      PlanTierParams.flatAmount = some none :=
  ⟨rfl, rfl, rfl⟩

/-- C3 amended: the price create and price tier expansion copy optional
numeric fields by presence (`GetOkExists`), so explicit zeros are sent;
the coupon create and the plan tier expansion use the non-zero test
(`GetOk`), so explicit zeros there are omitted from the request. -/
theorem create_present_vs_nonzero :
    (∀ pf (i : PriceInput) req, resourceStripePriceCreate pf i = .ok req →
      req.unitAmount = i.unit_amount ∧ req.unitAmountDecimal = i.unit_amount_decimal) ∧
    (∀ t p, expandPriceTier t = .ok p →
      p.flatAmount = t.flat_amount ∧ p.unitAmount = t.unit_amount) ∧
    (∀ pf (i : CouponInput) req, resourceStripeCouponCreate pf i = .ok req →
      req.amountOff = getOkInt i.amount_off) ∧
    (∀ t p, expandPlanTier t = .ok p →
      p.flatAmount = getOkInt t.flat_amount ∧ p.unitAmount = getOkInt t.unit_amount) := by
  refine ⟨?_, ?_, ?_, ?_⟩
  · intro pf i req h
    simp only [resourceStripePriceCreate] at h
    split at h
    · exact Except.noConfusion h
    · split at h
      · exact Except.noConfusion h
      · injection h with h
        subst h
        exact ⟨rfl, rfl⟩
  · intro t p h
    simp only [expandPriceTier, getOkExists] at h
    split at h
    · exact Except.noConfusion h
    · injection h with h
      subst h
      exact ⟨amountPair_fst _ _, amountPair_fst _ _⟩
  · intro pf i req h
    exact couponCreate_amountOff _ _ _ h
  · intro t p h
    simp only [expandPlanTier] at h
    split at h
    · exact Except.noConfusion h
    · injection h with h
      subst h
      exact ⟨amountPair_fst _ _, amountPair_fst _ _⟩

/-- Witness for the presence-versus-non-zero theorem: a price with
`unit_amount = 0` keeps the zero in its request, while a coupon with
`amount_off = 0` produces a request omitting it. -/
theorem create_present_vs_nonzero_witness :
    (priceZeroUnitAmountReq.unitAmount = priceZeroUnitAmount.unit_amount ∧
     priceZeroUnitAmountReq.unitAmountDecimal = priceZeroUnitAmount.unit_amount_decimal) ∧
    couponZeroAmountOffReq.amountOff = getOkInt couponZeroAmountOff.amount_off :=
  ⟨create_present_vs_nonzero.1 (fun _ => none) priceZeroUnitAmount
      priceZeroUnitAmountReq rfl,
   create_present_vs_nonzero.2.2.1 (fun _ => none) couponZeroAmountOff
      couponZeroAmountOffReq rfl⟩

/-- C8 counterexample: a coupon whose duration is the valid string
`"once"` but which also sets `duration_in_months` passes the duration
validation yet aborts with a different validation error, so no create
request is sent despite the valid duration. -/
theorem couponCreate_valid_duration_counterexample :
    (validDurations.lookup couponOnceWithMonths.duration).getD false = true ∧
    resourceStripeCouponCreate (fun _ => none) couponOnceWithMonths =
      .error "can't set duration in months if event is not repeating" :=
  ⟨rfl, rfl⟩

/-- C8 amended: any duration outside `{forever, once, repeating}` makes
the coupon create fail, before any remote call, with a descriptive error
naming the offending value; a valid duration passes the duration
validation, and the create request is sent provided the remaining local
validations also pass (`duration_in_months` only with `"repeating"`,
`currency` only alongside `amount_off`, and a parseable `redeem_by`). -/
theorem couponCreate_duration_gate :
    (∀ pf (i : CouponInput),
      i.duration ≠ "repeating" → i.duration ≠ "once" → i.duration ≠ "forever" →
      resourceStripeCouponCreate pf i = .error (durationErrorMessage i.duration)) ∧
    (∀ pf (i : CouponInput),
      (validDurations.lookup i.duration).getD false = true →
      (getOkInt i.duration_in_months ≠ none → i.duration = "repeating") →
      ((getOkStr i.currency).isSome = true → (getOkInt i.amount_off).isSome = true) →
      (∀ s, getOkStr i.redeem_by = some s → (pf s).isSome = true) →
      (resourceStripeCouponCreate pf i).isOk = true) := by
  constructor
  · intro pf i h1 h2 h3
    have e1 : (i.duration == "repeating") = false := by simp [h1]
    have e2 : (i.duration == "once") = false := by simp [h2]
    have e3 : (i.duration == "forever") = false := by simp [h3]
    have hb : (validDurations.lookup i.duration).getD false = false := by
      simp [validDurations, List.lookup, e1, e2, e3]
    simp [resourceStripeCouponCreate, hb]
  · intro pf i hval hdim hcur hr
    simp only [resourceStripeCouponCreate, hval, Bool.not_true, Bool.false_eq_true,
      if_false]
    cases hd : getOkInt i.duration_in_months with
    | none =>
      exact couponCreateRest_isOk _ _ _ _ _ _ hcur hr
    | some dim =>
      have hrep : i.duration = "repeating" := hdim (by rw [hd]; simp)
      have : (i.duration != "repeating") = false := by
        rw [hrep]
        rfl
      simp only [this, Bool.false_eq_true, if_false]
      exact couponCreateRest_isOk _ _ _ _ _ _ hcur hr

/-- Witness for the duration gate: the duration `"weekly"` is rejected
with the message naming it, while a fully valid repeating coupon's
create succeeds. -/
theorem couponCreate_duration_gate_witness :
    resourceStripeCouponCreate (fun _ => none) couponBadDuration =
      .error (durationErrorMessage "weekly") ∧
    (resourceStripeCouponCreate (fun _ => none) couponValidInput).isOk = true :=
  ⟨couponCreate_duration_gate.1 (fun _ => none) couponBadDuration
      (by decide) (by decide) (by decide),
   couponCreate_duration_gate.2 (fun _ => none) couponValidInput
      (by decide) (fun _ => rfl) (fun _ => by decide) (fun s hs => nomatch hs)⟩

/-- C9 counterexample: a coupon whose `currency` is present but set to
the empty string, with no `amount_off`, is not rejected: the source
tests `currency` with `GetOk`, which treats the empty string as unset,
so the create request is sent. -/
theorem couponCreate_empty_currency_counterexample :
    couponEmptyCurrency.currency = some "" ∧
    getOkInt couponEmptyCurrency.amount_off = none ∧
    (resourceStripeCouponCreate (fun _ => none) couponEmptyCurrency).isOk = true :=
  ⟨rfl, rfl, rfl⟩

/-- C9 amended: a coupon create whose `currency` resolves to a non-empty
string while `amount_off` is absent or zero fails with a validation
error before any remote call; no create request is sent. -/
theorem couponCreate_currency_without_amountOff (pf : String → Option Int)
    (i : CouponInput) (hc : (getOkStr i.currency).isSome = true)
    (ha : getOkInt i.amount_off = none) :
    ∃ e, resourceStripeCouponCreate pf i = .error e := by
  cases hb : (validDurations.lookup i.duration).getD false with
  | false =>
    refine ⟨durationErrorMessage i.duration, ?_⟩
    simp [resourceStripeCouponCreate, hb]
  | true =>
    cases hd : getOkInt i.duration_in_months with
    | none =>
      refine ⟨"can only set currency when using amount_off", ?_⟩
      simp only [resourceStripeCouponCreate, hb, Bool.not_true, Bool.false_eq_true,
        if_false, hd]
      exact couponCreateRest_currency_error _ _ _ _ _ _ hc ha
    | some dim =>
      cases hrep : (i.duration != "repeating") with
      | true =>
        refine ⟨"can't set duration in months if event is not repeating", ?_⟩
        simp [resourceStripeCouponCreate, hb, hd, hrep]
      | false =>
        refine ⟨"can only set currency when using amount_off", ?_⟩
        simp only [resourceStripeCouponCreate, hb, Bool.not_true, Bool.false_eq_true,
          if_false, hd, hrep]
        exact couponCreateRest_currency_error _ _ _ _ _ _ hc ha

/-- Witness for the currency check at a concrete coupon with
`currency = "eur"` and no `amount_off`. -/
theorem couponCreate_currency_without_amountOff_witness :
    ∃ e, resourceStripeCouponCreate (fun _ => none) couponCurrencyNoAmount =
      .error e :=
  couponCreate_currency_without_amountOff (fun _ => none) couponCurrencyNoAmount
    (by decide) (by decide)

/-- C5 counterexample: a plan create with `billing_scheme = "tiered"`
succeeds with a request in which neither `Amount` nor `AmountDecimal` is
populated, refuting the at-least-one half of the exactly-one claim. -/
theorem planCreate_tiered_counterexample :
    (resourceStripePlanCreate planTieredInput).toOption = some planTieredReq ∧
    planTieredReq.amount = none ∧ planTieredReq.amountDecimal = none :=
  ⟨rfl, rfl, rfl⟩

/-- C5 amended: a plan create request populates at most one of `Amount`
and `AmountDecimal`, and exactly one unless the resolved billing scheme
is `"tiered"`, in which case both are nil; each tier populates at most
one member of its flat-amount pair and at most one member of its
unit-amount pair (but possibly neither). -/
theorem planCreate_amount_exclusivity (i : PlanInput) (req : PlanParams)
    (h : resourceStripePlanCreate i = .ok req) :
    ¬(req.amount.isSome = true ∧ req.amountDecimal.isSome = true) ∧
    (getOkStrD i.billing_scheme "per_unit" ≠ some "tiered" →
      (req.amount.isSome = true ∨ req.amountDecimal.isSome = true)) ∧
    (∀ p ∈ req.tiers,
      ¬(p.flatAmount.isSome = true ∧ p.flatAmountDecimal.isSome = true) ∧
      ¬(p.unitAmount.isSome = true ∧ p.unitAmountDecimal.isSome = true)) := by
  simp only [resourceStripePlanCreate] at h
  cases hts : expandPlanTiers i.tier with
  | error e =>
    rw [hts] at h
    exact Except.noConfusion h
  | ok ts =>
    rw [hts] at h
    injection h with h
    subst h
    refine ⟨?_, ?_, ?_⟩
    · rcases hbs : getOkStrD i.billing_scheme "per_unit" with _ | bs
      · simp only [hbs]
        by_cases hgt : tfGet i.amount_decimal 0 > 0 <;> simp [hgt]
      · simp only [hbs]
        by_cases hbt : bs = "tiered"
        · simp [hbt]
        · have hbf : (bs == "tiered") = false := by simp [hbt]
          simp only [hbf, Bool.false_eq_true, if_false]
          by_cases hgt : tfGet i.amount_decimal 0 > 0 <;> simp [hgt]
    · intro hne
      rcases hbs : getOkStrD i.billing_scheme "per_unit" with _ | bs
      · simp only [hbs]
        by_cases hgt : tfGet i.amount_decimal 0 > 0 <;> simp [hgt]
      · have hbt : bs ≠ "tiered" := by
          intro hx
          exact hne (by rw [hbs, hx])
        have hbf : (bs == "tiered") = false := by simp [hbt]
        simp only [hbs, hbf, Bool.false_eq_true, if_false]
        by_cases hgt : tfGet i.amount_decimal 0 > 0 <;> simp [hgt]
    · intro p hp
      obtain ⟨t, htl, ht⟩ := expandPlanTiers_mem hts hp
      simp only [expandPlanTier] at ht
      split at ht
      · exact Except.noConfusion ht
      · injection ht with ht
        subst ht
        exact ⟨amountPair_not_both _ _, amountPair_not_both _ _⟩

/-- Witness for the amount exclusivity theorem at a concrete plan with
an integer amount and the default billing scheme. -/
theorem planCreate_amount_exclusivity_witness :
    ¬(planAmountReq.amount.isSome = true ∧ planAmountReq.amountDecimal.isSome = true) ∧
    (getOkStrD planAmountInput.billing_scheme "per_unit" ≠ some "tiered" →
      (planAmountReq.amount.isSome = true ∨ planAmountReq.amountDecimal.isSome = true)) ∧
    (∀ p ∈ planAmountReq.tiers,
      ¬(p.flatAmount.isSome = true ∧ p.flatAmountDecimal.isSome = true) ∧
      ¬(p.unitAmount.isSome = true ∧ p.unitAmountDecimal.isSome = true)) :=
  planCreate_amount_exclusivity planAmountInput planAmountReq rfl
